import Mathlib

/-!
Shallow embedding of the gift-tax computation engine in
src/gift_tax/calculator.py (the functions _find_progressive_bracket and
compute_tax together with the data contracts GiftInput, GiftBreakdown and
LawContext), over exact rational arithmetic.

Modelling conventions, chosen to match the Python source:
* Python Decimal values are exact base-10 numbers; they are embedded as
  rationals (ℚ).  Every concrete value appearing in proofs is
  decimal-representable.
* The law table is dynamically typed in Python (Dict[str, Any]).  A raw
  field value is embedded as RawScalar: either a value on which
  Decimal(str(v)) succeeds, carrying its rational value, or a value on
  which Decimal(str(v)) raises decimal.InvalidOperation (any non-numeric
  string, None appearing as a present value, and similar).
* An uncaught Python exception is embedded as Except.error.  The only
  exception class the modelled code can raise is decimal.InvalidOperation
  (KeyError is always caught where lookups occur in the source and is
  embedded by Option).
* A Python dict is embedded as an association list with distinct keys;
  dict access with a missing key (KeyError / .get default) is embedded by
  Option-valued lookup.
* law.data is Optional[Dict]; the Python truthiness test `not law.data`
  is false exactly when the dict is present and non-empty, so the
  embedding maps both None and the empty dict to Option.none and any
  non-empty dict to some LawData.
* Statements that in the source are sequenced inside one function body
  are embedded as a chain of continuation functions, one per
  intermediate result, pattern-matching on that result; the chain
  preserves the source's evaluation order and its exception flow.
-/

/-- Constructor-wise view of Except used to derive decidable equality. -/
def exceptToSum {ε α : Type} : Except ε α → ε ⊕ α
  | .error e => .inl e
  | .ok a => .inr a

instance {ε α : Type} [DecidableEq ε] [DecidableEq α] : DecidableEq (Except ε α) :=
  fun x y =>
    decidable_of_iff (exceptToSum x = exceptToSum y)
      (by cases x <;> cases y <;> simp [exceptToSum])

/-- Embedded Python exception: decimal.InvalidOperation, the only
exception the modelled code paths can raise (it is absent from every
except clause in calculator.py). -/
inductive PyErr
  | invalidOperation
deriving DecidableEq

/-- A raw scalar out of the parsed law-table data, as seen by
Decimal(str(value)): either numeric with exact value q, or non-numeric,
making the conversion raise decimal.InvalidOperation. -/
inductive RawScalar
  | num (q : ℚ)
  | nonNumeric
deriving DecidableEq

/-- Decimal(str(value)) on a raw scalar: calculator.py lines 115-119 and
180-182. -/
def RawScalar.toDecimal : RawScalar → Except PyErr ℚ
  | .num q => .ok q
  | .nonNumeric => .error PyErr.invalidOperation

/-- One raw entry of law.data["progressive_rates"], before normalization
(calculator.py _find_progressive_bracket).  A field is none when the key
is absent from the dict (for max also when the stored value is None,
since the source reads it with .get("max")). -/
structure RawBracket where
  min : Option RawScalar
  max : Option RawScalar
  rate : Option RawScalar
  deduction : Option RawScalar
deriving DecidableEq

/-- A normalized progressive bracket (the dict built at calculator.py
lines 121-128). -/
structure NormBracket where
  min : ℚ
  max : Option ℚ
  rate : ℚ
  deduction : ℚ
deriving DecidableEq

/-- Optional law.data["metadata"] fields (calculator.py lines 170-173);
an absent metadata key is modelled as all fields none. -/
structure Metadata where
  version : Option String
  reference : Option String
  reference_url : Option String
deriving DecidableEq

/-- The parsed, non-empty law table dict: the keys compute_tax reads.
basic_deduction maps residency-status key to a map from relationship key
to a raw scalar; progressive_rates is the raw bracket list.  Keys absent
from the Python dict are the empty list / all-none metadata. -/
structure LawData where
  metadata : Metadata
  basic_deduction : List (String × List (String × RawScalar))
  progressive_rates : List RawBracket
deriving DecidableEq

/-- LawContext dataclass (calculator.py lines 89-94): raw data plus the
configured flag.  data = none embeds both Python None and the empty
dict, the two cases where `not law.data` holds. -/
structure LawContext where
  data : Option LawData
  configured : Bool
deriving DecidableEq

/-- Validated GiftInput (calculator.py lines 16-57).  gift_date is kept
as an opaque echoed string: the computation never inspects it. -/
structure GiftInput where
  recipient_name : String
  gift_date : String
  relationship : String
  residency_status : String
  property_type : String
  property_value : ℚ
  debt_assumed : ℚ
  prior_gifts : ℚ
deriving DecidableEq

/-- What the pydantic validators guarantee about a GiftInput that was
constructed successfully: the four textual fields are non-empty and the
three monetary fields are non-negative (Field ge=0 plus the decimal
pre-validator mapping None and the empty string to 0). -/
def GiftInput.Valid (gi : GiftInput) : Prop :=
  gi.recipient_name ≠ "" ∧ gi.relationship ≠ "" ∧ gi.residency_status ≠ "" ∧
    gi.property_type ≠ "" ∧ 0 ≤ gi.property_value ∧ 0 ≤ gi.debt_assumed ∧
    0 ≤ gi.prior_gifts

instance (gi : GiftInput) : Decidable gi.Valid := by
  unfold GiftInput.Valid
  infer_instance

/-- The notes appended by compute_tax, one constructor per source format
string, carrying the interpolated values:
* lawUnconfigured: the line-168 note (law table not configured);
* missingDeduction: the line-184 note (no basic deduction entry for the
  residency/relationship pair);
* noBracket: the line-223 note (no progressive bracket found);
* bracketApplied base ratePercent deduction: the line-234 note citing
  int(taxable_base), applied_rate * 100 and int(progressive_deduction);
* priorGiftsReduced amount: the line-243 note citing int(prior_gifts). -/
inductive Note
  | lawUnconfigured
  | missingDeduction
  | noBracket
  | bracketApplied (base : ℤ) (ratePercent : ℚ) (deduction : ℤ)
  | priorGiftsReduced (amount : ℤ)
deriving DecidableEq

/-- GiftBreakdown output model (calculator.py lines 60-82), with notes
as the Note inductive above. -/
structure GiftBreakdown where
  law_configured : Bool
  law_version : Option String
  law_reference : Option String
  law_reference_url : Option String
  recipient_name : String
  gift_date : String
  relationship : String
  residency_status : String
  property_type : String
  property_value : ℚ
  debt_assumed : ℚ
  net_gift : ℚ
  basic_deduction_limit : ℚ
  prior_gifts_adjustment : ℚ
  basic_deduction : ℚ
  taxable_base : ℚ
  applied_rate : Option ℚ
  progressive_deduction : Option ℚ
  tax_due : Option ℚ
  notes : List Note
deriving DecidableEq

/-- Python int() on a Decimal: truncation toward zero. -/
def intTrunc (q : ℚ) : ℤ :=
  if 0 ≤ q then ⌊q⌋ else ⌈q⌉

/-- Decimal.quantize(Decimal 1, rounding=ROUND_HALF_UP): round to the
nearest integer with ties away from zero (calculator.py line 233). -/
def quantizeHalfUp (q : ℚ) : ℤ :=
  if 0 ≤ q then ⌊q + 1 / 2⌋ else -⌊-q + 1 / 2⌋

/-- Python dict read d[key] / d.get(key), embedded on association
lists. -/
def dictGet {α : Type} : List (String × α) → String → Option α
  | [], _ => none
  | (k, v) :: rest, key => if k = key then some v else dictGet rest key

/-- The nested read basic_table[residency_key][relationship_key] at
calculator.py lines 180-182; none embeds the KeyError from either
level. -/
def dictGet2 (t : List (String × List (String × RawScalar))) (k1 k2 : String) :
    Option RawScalar :=
  match dictGet t k1 with
  | none => none
  | some inner => dictGet inner k2

/-! Normalization of one raw bracket, in source order (calculator.py
lines 113-130): min via .get("min", "0"), max via .get("max") with None
meaning unbounded, rate via bracket["rate"] whose KeyError is caught by
the except clause (result .ok none = skipped), deduction via
.get("deduction", "0").  A non-numeric present field raises
decimal.InvalidOperation, which the except clause
(KeyError, ValueError, TypeError) does NOT catch: result .error.  The
steps are chained through one continuation function per converted
field. -/

/-- Wraps the converted max value, propagating an exception. -/
def normMaxVal : Except PyErr ℚ → Except PyErr (Option ℚ)
  | .error e => .error e
  | .ok q => .ok (some q)

/-- Conversion of the optional max field: Decimal(str(max_value)) when a
value is present, None otherwise (calculator.py lines 116-117). -/
def normMax : Option RawScalar → Except PyErr (Option ℚ)
  | none => .ok none
  | some s => normMaxVal s.toDecimal

/-- Last normalization step: deduction converted (calculator.py line
119), bracket dict built (lines 121-128). -/
def nbFinish (mn : ℚ) (mx : Option ℚ) (rate : ℚ) :
    Except PyErr ℚ → Except PyErr (Option NormBracket)
  | .error e => .error e
  | .ok d => .ok (some { min := mn, max := mx, rate := rate, deduction := d })

/-- Rate value converted (calculator.py line 118), then the deduction
field. -/
def nbWithRateVal (mn : ℚ) (mx : Option ℚ) (ded : Option RawScalar) :
    Except PyErr ℚ → Except PyErr (Option NormBracket)
  | .error e => .error e
  | .ok rate => nbFinish mn mx rate ((ded.getD (RawScalar.num 0)).toDecimal)

/-- The bracket["rate"] read (calculator.py line 118): an absent rate
key raises KeyError, which the except clause catches, skipping the
bracket (.ok none). -/
def nbWithRate (mn : ℚ) (mx : Option ℚ) (ded : Option RawScalar) :
    Option RawScalar → Except PyErr (Option NormBracket)
  | none => .ok none
  | some r => nbWithRateVal mn mx ded r.toDecimal

/-- Max converted, then the rate field. -/
def nbWithMax (b : RawBracket) (mn : ℚ) :
    Except PyErr (Option ℚ) → Except PyErr (Option NormBracket)
  | .error e => .error e
  | .ok mx => nbWithRate mn mx b.deduction b.rate

/-- Min converted (calculator.py line 115), then the max field. -/
def nbWithMin (b : RawBracket) :
    Except PyErr ℚ → Except PyErr (Option NormBracket)
  | .error e => .error e
  | .ok mn => nbWithMax b mn (normMax b.max)

/-- Normalization of one raw bracket in source field order: min, max,
rate, deduction. -/
def normalizeBracket (b : RawBracket) : Except PyErr (Option NormBracket) :=
  nbWithMin b ((b.min.getD (RawScalar.num 0)).toDecimal)

/-- Accumulation step of the normalization loop: a skipped bracket
contributes nothing, an exception aborts the whole call (the head
bracket is processed before the tail, so its exception wins). -/
def consNormalized :
    Except PyErr (Option NormBracket) → Except PyErr (List NormBracket) →
      Except PyErr (List NormBracket)
  | .error e, _ => .error e
  | .ok _, .error e => .error e
  | .ok none, .ok tail => .ok tail
  | .ok (some nb), .ok tail => .ok (nb :: tail)

/-- The normalization loop of _find_progressive_bracket (calculator.py
lines 113-130), preserving bracket order. -/
def normalizeBrackets : List RawBracket → Except PyErr (List NormBracket)
  | [] => .ok []
  | b :: rest => consNormalized (normalizeBracket b) (normalizeBrackets rest)

/-- Stable insertion keeping earlier elements before later ones with an
equal key: the element being inserted goes after every head whose min is
not greater. -/
def insertByMin (br : NormBracket) : List NormBracket → List NormBracket
  | [] => [br]
  | x :: xs => if br.min < x.min then br :: x :: xs else x :: insertByMin br xs

/-- Stable sort by the min field, embedding normalized.sort(key=min) at
calculator.py line 132 (Python list.sort is a stable sort by key). -/
def sortByMin : List NormBracket → List NormBracket
  | [] => []
  | x :: xs => insertByMin x (sortByMin xs)

/-- The selection loop at calculator.py lines 134-139: first bracket in
the sorted list whose inclusive range contains the taxable base, an
absent max meaning unbounded above. -/
def selectBracket : List NormBracket → ℚ → Option NormBracket
  | [], _ => none
  | br :: rest, tb =>
      if br.min ≤ tb ∧ (∀ m ∈ br.max, tb ≤ m) then some br
      else selectBracket rest tb

instance (br : NormBracket) (tb : ℚ) :
    Decidable (br.min ≤ tb ∧ (∀ m ∈ br.max, tb ≤ m)) := by
  infer_instance

/-- Sort and selection applied to the outcome of normalization. -/
def findFromNormalized (tb : ℚ) :
    Except PyErr (List NormBracket) → Except PyErr (Option NormBracket)
  | .error e => .error e
  | .ok l => .ok (selectBracket (sortByMin l) tb)

/-- _find_progressive_bracket (calculator.py lines 108-141): normalize,
sort by min, select the first matching bracket; .ok none when no bracket
matches, .error when normalization raises an uncaught exception. -/
def find_progressive_bracket (brackets : List RawBracket) (taxable_base : ℚ) :
    Except PyErr (Option NormBracket) :=
  findFromNormalized taxable_base (normalizeBrackets brackets)

/-- Net gift (calculator.py lines 147-151): property value minus debt
assumed, floored at zero. -/
def netGift (gi : GiftInput) : ℚ :=
  let v := gi.property_value - gi.debt_assumed
  if v < 0 then 0 else v

/-- Prior-gifts adjustment after a successful deduction lookup
(calculator.py line 210): prior gifts capped at the deduction limit,
Python min written out. -/
def priorAdjustment (prior limit : ℚ) : ℚ :=
  if prior ≤ limit then prior else limit

/-- Basic deduction applied (calculator.py lines 211-213): limit minus
the adjustment, floored at zero. -/
def basicDeductionApplied (prior limit : ℚ) : ℚ :=
  let v := limit - priorAdjustment prior limit
  if v < 0 then 0 else v

/-- Taxable base (calculator.py lines 215-217): net gift minus applied
deduction, floored at zero. -/
def taxableBaseOf (gi : GiftInput) (limit : ℚ) : ℚ :=
  let v := netGift gi - basicDeductionApplied gi.prior_gifts limit
  if v < 0 then 0 else v

/-- The prior-gifts note block (calculator.py lines 242-247), reached
only inside the configured branch: appended exactly when the Decimal
prior_gifts is truthy, i.e. non-zero. -/
def priorNotes (gi : GiftInput) : List Note :=
  if gi.prior_gifts = 0 then [] else [Note.priorGiftsReduced (intTrunc gi.prior_gifts)]

/-- A breakdown carrying the echoed input fields and the initial values
of every computed field (calculator.py lines 153-165): deduction limit,
adjustment (initialized to the raw prior gifts), deduction, base all as
first assigned, optional fields None.  The branches below override the
fields they actually assign. -/
def echoBreakdown (gi : GiftInput) (lawConfigured : Bool) (md : Metadata) :
    GiftBreakdown where
  law_configured := lawConfigured
  law_version := md.version
  law_reference := md.reference
  law_reference_url := md.reference_url
  recipient_name := gi.recipient_name
  gift_date := gi.gift_date
  relationship := gi.relationship
  residency_status := gi.residency_status
  property_type := gi.property_type
  property_value := gi.property_value
  debt_assumed := gi.debt_assumed
  net_gift := netGift gi
  basic_deduction_limit := 0
  prior_gifts_adjustment := gi.prior_gifts
  basic_deduction := 0
  taxable_base := 0
  applied_rate := none
  progressive_deduction := none
  tax_due := none
  notes := []

/-- The fields shared by the three returns past a successful deduction
lookup (calculator.py lines 210-217 and the final return): limit,
capped adjustment, applied deduction and taxable base. -/
def successBreakdown (gi : GiftInput) (d : LawData) (limit : ℚ) : GiftBreakdown :=
  { echoBreakdown gi true d.metadata with
    basic_deduction_limit := limit
    prior_gifts_adjustment := priorAdjustment gi.prior_gifts limit
    basic_deduction := basicDeductionApplied gi.prior_gifts limit
    taxable_base := taxableBaseOf gi limit }

/-- The early missing-key return (calculator.py lines 183-208): note,
law_configured False, every computed field still at its initial
value. -/
def missingKeyBreakdown (gi : GiftInput) (d : LawData) : GiftBreakdown :=
  { echoBreakdown gi false d.metadata with notes := [Note.missingDeduction] }

/-- The zero-base return (calculator.py lines 219-220 and the final
return): tax_due 0, no bracket fields, no bracket note. -/
def zeroBaseBreakdown (gi : GiftInput) (d : LawData) (limit : ℚ) : GiftBreakdown :=
  { successBreakdown gi d limit with
    tax_due := some 0
    notes := priorNotes gi }

/-- The no-matching-bracket return (calculator.py lines 222-224 and the
final return): tax_due None plus the no-bracket note. -/
def noBracketBreakdown (gi : GiftInput) (d : LawData) (limit : ℚ) : GiftBreakdown :=
  { successBreakdown gi d limit with
    tax_due := none
    notes := Note.noBracket :: priorNotes gi }

/-- The matched-bracket return (calculator.py lines 226-241 and the
final return): rate and progressive deduction recorded, raw tax clamped
at zero then rounded half-up, bracket note appended. -/
def matchedBreakdown (gi : GiftInput) (d : LawData) (limit : ℚ) (br : NormBracket) :
    GiftBreakdown :=
  let base := taxableBaseOf gi limit
  let raw_tax := base * br.rate
  let t0 := raw_tax - br.deduction
  let t1 := if t0 < 0 then 0 else t0
  { successBreakdown gi d limit with
    applied_rate := some br.rate
    progressive_deduction := some br.deduction
    tax_due := some ((quantizeHalfUp t1 : ℤ) : ℚ)
    notes := Note.bracketApplied (intTrunc base) (br.rate * 100)
               (intTrunc br.deduction) :: priorNotes gi }

/-- Bracket resolution outcome (calculator.py lines 219-241): no-bracket
note with tax_due None, or the matched bracket's rate and rounded tax
with the bracket note; an exception from normalization propagates. -/
def bracketStep (gi : GiftInput) (d : LawData) (limit : ℚ) :
    Except PyErr (Option NormBracket) → Except PyErr GiftBreakdown
  | .error e => .error e
  | .ok none => .ok (noBracketBreakdown gi d limit)
  | .ok (some br) => .ok (matchedBreakdown gi d limit br)

/-- Zero-base shortcut (calculator.py lines 219-220): tax_due 0 with no
bracket lookup; otherwise bracket resolution on the taxable base. -/
def baseStep (gi : GiftInput) (d : LawData) (limit : ℚ) : Except PyErr GiftBreakdown :=
  if taxableBaseOf gi limit = 0 then
    .ok (zeroBaseBreakdown gi d limit)
  else
    bracketStep gi d limit
      (find_progressive_bracket d.progressive_rates (taxableBaseOf gi limit))

/-- Decimal conversion of the looked-up deduction limit (calculator.py
lines 180-182): a non-numeric value raises through (only KeyError is
caught there). -/
def limitStep (gi : GiftInput) (d : LawData) :
    Except PyErr ℚ → Except PyErr GiftBreakdown
  | .error e => .error e
  | .ok limit => baseStep gi d limit

/-- The basic_deduction[residency][relationship] lookup (calculator.py
lines 179-208): KeyError produces the early missing-key return with
law_configured False and zeroed computation fields. -/
def lookupStep (gi : GiftInput) (d : LawData) :
    Option RawScalar → Except PyErr GiftBreakdown
  | none => .ok (missingKeyBreakdown gi d)
  | some raw => limitStep gi d raw.toDecimal

/-- The configured branch of compute_tax (calculator.py lines 169-247
plus the final return). -/
def computeConfigured (gi : GiftInput) (d : LawData) : Except PyErr GiftBreakdown :=
  lookupStep gi d (dictGet2 d.basic_deduction gi.residency_status gi.relationship)

/-- The degraded return (calculator.py lines 167-168 and the final
return): only the unconfigured note, law_configured being the final
expression `law.configured and bool(law.data)`. -/
def degradedBreakdown (gi : GiftInput) (law : LawContext) : GiftBreakdown :=
  { echoBreakdown gi (law.configured && law.data.isSome)
      { version := none, reference := none, reference_url := none } with
    notes := [Note.lawUnconfigured] }

/-- compute_tax (calculator.py lines 144-270).  The degraded branch is
taken exactly when `not law.configured or not law.data` holds.  An
uncaught decimal.InvalidOperation is the .error result. -/
def compute_tax (gi : GiftInput) (law : LawContext) : Except PyErr GiftBreakdown :=
  match law.configured, law.data with
  | true, some d => computeConfigured gi d
  | _, _ => .ok (degradedBreakdown gi law)

/-! Concrete fixtures used by the verification below. -/

/-- A fully populated GiftInput with the given relationship, residency
and monetary fields (the echoed-only fields held fixed). -/
def mkGiftInput (rel res : String) (pv debt prior : ℚ) : GiftInput :=
  { recipient_name := "recipient"
    gift_date := "2025-02-10"
    relationship := rel
    residency_status := res
    property_type := "cash"
    property_value := pv
    debt_assumed := debt
    prior_gifts := prior }

/-- An absent law table: LawContext(data=None, configured=False), as
load_law_table returns for a missing file. -/
def lawUnconfigured0 : LawContext :=
  { data := none, configured := false }

/-- Metadata with no populated fields. -/
def emptyMetadata : Metadata :=
  { version := none, reference := none, reference_url := none }

/-- Modelled from the spec: the repository's law table
gift_tax/law_tables/kor_2025.yaml is not part of the sources, only its
consumers are; its basic_deduction matrix is reconstructed from the
spec's §8 scenarios (spouse 600,000,000; adult lineal descendant
50,000,000; minor lineal descendant 20,000,000; non-resident others
10,000,000) and the tests' expectations. -/
def korBasicDeduction : List (String × List (String × RawScalar)) :=
  [("resident",
     [("spouse", RawScalar.num 600000000),
      ("lineal_ascendant", RawScalar.num 50000000),
      ("lineal_descendant_adult", RawScalar.num 50000000),
      ("lineal_descendant_minor", RawScalar.num 20000000),
      ("others", RawScalar.num 10000000)]),
   ("non_resident",
     [("others", RawScalar.num 10000000)])]

/-- Modelled from the spec: the progressive_rates list of the absent
kor_2025.yaml, reconstructed from the §8 scenarios (10% to 100,000,000;
20% with 10,000,000 deduction to 500,000,000; then the statutory 30%,
40% with 160,000,000 deduction as forced by the spouse scenario, and 50%
above 3,000,000,000), contiguous with inclusive boundaries as §3
requires. -/
def korProgressiveRates : List RawBracket :=
  [{ min := some (RawScalar.num 0), max := some (RawScalar.num 100000000),
     rate := some (RawScalar.num (1 / 10)), deduction := some (RawScalar.num 0) },
   { min := some (RawScalar.num 100000000), max := some (RawScalar.num 500000000),
     rate := some (RawScalar.num (2 / 10)), deduction := some (RawScalar.num 10000000) },
   { min := some (RawScalar.num 500000000), max := some (RawScalar.num 1000000000),
     rate := some (RawScalar.num (3 / 10)), deduction := some (RawScalar.num 60000000) },
   { min := some (RawScalar.num 1000000000), max := some (RawScalar.num 3000000000),
     rate := some (RawScalar.num (4 / 10)), deduction := some (RawScalar.num 160000000) },
   { min := some (RawScalar.num 3000000000), max := none,
     rate := some (RawScalar.num (5 / 10)), deduction := some (RawScalar.num 460000000) }]

/-- Modelled from the spec: the loaded kor_2025 law table. -/
def korLawData : LawData :=
  { metadata := { version := some "2025-01-01", reference := none, reference_url := none }
    basic_deduction := korBasicDeduction
    progressive_rates := korProgressiveRates }

/-- Modelled from the spec: the LawContext produced by loading the
populated kor_2025 table (configured, no placeholder marker). -/
def korLawContext2025 : LawContext :=
  { data := some korLawData, configured := true }

/-- A configured context whose deduction-limit entry for
(resident, spouse) holds a non-numeric value: Decimal(str(...)) on it
raises decimal.InvalidOperation, and the except clause at the lookup
catches only KeyError. -/
def lawBadDeductionValue : LawContext :=
  { data := some
      { metadata := emptyMetadata
        basic_deduction := [("resident", [("spouse", RawScalar.nonNumeric)])]
        progressive_rates := [] }
    configured := true }

/-- A configured context with a valid deduction entry but a progressive
bracket whose min field is non-numeric: normalization reaches
Decimal(str(min)) and raises decimal.InvalidOperation, which the except
clause (KeyError, ValueError, TypeError) does not catch. -/
def lawBadBracketField : LawContext :=
  { data := some
      { metadata := emptyMetadata
        basic_deduction := [("resident", [("spouse", RawScalar.num 0)])]
        progressive_rates :=
          [{ min := some RawScalar.nonNumeric, max := none,
             rate := some (RawScalar.num (1 / 10)), deduction := some (RawScalar.num 0) }] }
    configured := true }

/-- A configured context with a decreasing rate schedule: 100% up to
100, then 0% above 101.  Legal per the data model, and a counterexample
to unconditional monotonicity of the tax in the property value. -/
def lawAdversarial : LawContext :=
  { data := some
      { metadata := emptyMetadata
        basic_deduction := [("resident", [("spouse", RawScalar.num 0)])]
        progressive_rates :=
          [{ min := some (RawScalar.num 0), max := some (RawScalar.num 100),
             rate := some (RawScalar.num 1), deduction := some (RawScalar.num 0) },
           { min := some (RawScalar.num 101), max := none,
             rate := some (RawScalar.num 0), deduction := some (RawScalar.num 0) }] }
    configured := true }

/-- The marginal function of the modelled kor_2025 schedule: rate times
base minus the bracket's progressive deduction, piecewise over the
spec's boundaries. -/
def korRawTax (b : ℚ) : ℚ :=
  if b ≤ 100000000 then b * (1 / 10)
  else if b ≤ 500000000 then b * (2 / 10) - 10000000
  else if b ≤ 1000000000 then b * (3 / 10) - 60000000
  else if b ≤ 3000000000 then b * (4 / 10) - 160000000
  else b * (5 / 10) - 460000000

/-- The rounded tax the engine produces on the modelled kor_2025
schedule for a given taxable base. -/
def korTax (b : ℚ) : ℚ :=
  ((⌊max 0 (korRawTax b) + 1 / 2⌋ : ℤ) : ℚ)

/-- The bracket of the modelled kor_2025 schedule containing a given
positive taxable base. -/
def korBracketAt (b : ℚ) : NormBracket :=
  if b ≤ 100000000 then
    { min := 0, max := some 100000000, rate := 1 / 10, deduction := 0 }
  else if b ≤ 500000000 then
    { min := 100000000, max := some 500000000, rate := 2 / 10, deduction := 10000000 }
  else if b ≤ 1000000000 then
    { min := 500000000, max := some 1000000000, rate := 3 / 10, deduction := 60000000 }
  else if b ≤ 3000000000 then
    { min := 1000000000, max := some 3000000000, rate := 4 / 10, deduction := 160000000 }
  else
    { min := 3000000000, max := none, rate := 5 / 10, deduction := 460000000 }

/-- The normalized form of the modelled kor_2025 brackets (the output of
the normalization loop on korProgressiveRates). -/
def korNorm : List NormBracket :=
  [{ min := 0, max := some 100000000, rate := 1 / 10, deduction := 0 },
   { min := 100000000, max := some 500000000, rate := 2 / 10, deduction := 10000000 },
   { min := 500000000, max := some 1000000000, rate := 3 / 10, deduction := 60000000 },
   { min := 1000000000, max := some 3000000000, rate := 4 / 10, deduction := 160000000 },
   { min := 3000000000, max := none, rate := 5 / 10, deduction := 460000000 }]

/-! Helper lemmas about the arithmetic steps. -/

/-- The source's clamp pattern `if v < 0 then 0 else v` is a max with
zero. -/
theorem clamp_eq_max (x : ℚ) : (if x < 0 then 0 else x) = max 0 x := by
  rw [max_def]
  split_ifs <;> linarith

/-- The net gift is the zero-floored difference. -/
theorem netGift_eq_max (gi : GiftInput) :
    netGift gi = max 0 (gi.property_value - gi.debt_assumed) := by
  rw [netGift, clamp_eq_max]

/-- The written-out Python min in priorAdjustment is the mathematical
min. -/
theorem priorAdjustment_eq_min (prior limit : ℚ) :
    priorAdjustment prior limit = min prior limit :=
  (min_def prior limit).symm

/-- The applied deduction is the zero-floored remainder of the limit
after the capped adjustment. -/
theorem basicDeductionApplied_eq_max (prior limit : ℚ) :
    basicDeductionApplied prior limit =
      max 0 (limit - priorAdjustment prior limit) := by
  rw [basicDeductionApplied, clamp_eq_max]

/-- The taxable base is the zero-floored remainder of the net gift after
the applied deduction. -/
theorem taxableBaseOf_eq_max (gi : GiftInput) (limit : ℚ) :
    taxableBaseOf gi limit =
      max 0 (netGift gi - basicDeductionApplied gi.prior_gifts limit) := by
  rw [taxableBaseOf, clamp_eq_max]

/-- Half-up rounding of a non-negative value is the floor of the value
plus one half. -/
theorem quantizeHalfUp_of_nonneg (x : ℚ) (h : 0 ≤ x) :
    quantizeHalfUp x = ⌊x + 1 / 2⌋ :=
  if_pos h

/-- Half-up rounding of a non-negative value is non-negative. -/
theorem quantizeHalfUp_nonneg (x : ℚ) (h : 0 ≤ x) : 0 ≤ quantizeHalfUp x := by
  rw [quantizeHalfUp_of_nonneg x h]
  exact Int.floor_nonneg.mpr (by linarith)

/-- Half-up rounding is monotone. -/
theorem quantizeHalfUp_mono (x y : ℚ) (hx : 0 ≤ x) (hxy : x ≤ y) :
    quantizeHalfUp x ≤ quantizeHalfUp y := by
  rw [quantizeHalfUp_of_nonneg x hx, quantizeHalfUp_of_nonneg y (le_trans hx hxy)]
  exact Int.floor_le_floor (by linarith)

/-- Exhaustive description of the successful outcomes of compute_tax:
either the degraded return, or the law is configured with non-empty data
and the outcome is the missing-key return, the zero-base return, the
no-bracket return or the matched-bracket return, as selected by the
deduction lookup, the taxable base and the bracket search. -/
theorem compute_tax_ok_cases (gi : GiftInput) (law : LawContext) (b : GiftBreakdown)
    (hok : compute_tax gi law = .ok b) :
    ((law.configured = false ∨ law.data = none) ∧ b = degradedBreakdown gi law) ∨
    ∃ d, law.data = some d ∧ law.configured = true ∧
      ((dictGet2 d.basic_deduction gi.residency_status gi.relationship = none ∧
         b = missingKeyBreakdown gi d) ∨
       ∃ limit, dictGet2 d.basic_deduction gi.residency_status gi.relationship =
           some (RawScalar.num limit) ∧
         ((taxableBaseOf gi limit = 0 ∧ b = zeroBaseBreakdown gi d limit) ∨
          (taxableBaseOf gi limit ≠ 0 ∧
            ((find_progressive_bracket d.progressive_rates (taxableBaseOf gi limit) =
                .ok none ∧ b = noBracketBreakdown gi d limit) ∨
             ∃ br, find_progressive_bracket d.progressive_rates (taxableBaseOf gi limit) =
                 .ok (some br) ∧ b = matchedBreakdown gi d limit br)))) := by
  obtain ⟨data, configured⟩ := law
  cases configured with
  | false =>
      cases data with
      | none =>
          exact Or.inl ⟨Or.inl rfl, by simpa [compute_tax] using hok.symm⟩
      | some d =>
          exact Or.inl ⟨Or.inl rfl, by simpa [compute_tax] using hok.symm⟩
  | true =>
      cases data with
      | none =>
          exact Or.inl ⟨Or.inr rfl, by simpa [compute_tax] using hok.symm⟩
      | some d =>
          refine Or.inr ⟨d, rfl, rfl, ?_⟩
          replace hok :
              lookupStep gi d
                (dictGet2 d.basic_deduction gi.residency_status gi.relationship) =
                .ok b := hok
          cases h1 : dictGet2 d.basic_deduction gi.residency_status gi.relationship with
          | none =>
              rw [h1] at hok
              simp only [lookupStep, Except.ok.injEq] at hok
              exact Or.inl ⟨rfl, hok.symm⟩
          | some raw =>
              rw [h1] at hok
              cases raw with
              | nonNumeric =>
                  simp [lookupStep, RawScalar.toDecimal, limitStep] at hok
              | num limit =>
                  simp only [lookupStep, RawScalar.toDecimal, limitStep] at hok
                  refine Or.inr ⟨limit, rfl, ?_⟩
                  by_cases h2 : taxableBaseOf gi limit = 0
                  · rw [baseStep, if_pos h2] at hok
                    simp only [Except.ok.injEq] at hok
                    exact Or.inl ⟨h2, hok.symm⟩
                  · rw [baseStep, if_neg h2] at hok
                    refine Or.inr ⟨h2, ?_⟩
                    cases h3 : find_progressive_bracket d.progressive_rates
                        (taxableBaseOf gi limit) with
                    | error e =>
                        rw [h3] at hok
                        simp [bracketStep] at hok
                    | ok obr =>
                        rw [h3] at hok
                        cases obr with
                        | none =>
                            simp only [bracketStep, Except.ok.injEq] at hok
                            exact Or.inl ⟨rfl, hok.symm⟩
                        | some br =>
                            simp only [bracketStep, Except.ok.injEq] at hok
                            exact Or.inr ⟨br, rfl, hok.symm⟩

/-- C2: with an unconfigured flag or empty law data, compute_tax returns
the degraded breakdown: zero deduction limit, zero deduction, zero
taxable base, no tax, law_configured false, only the unavailability
note, and no bracket fields -- for every input, with no partial
computation. -/
theorem compute_tax_degraded_path (gi : GiftInput) (law : LawContext)
    (h : law.configured = false ∨ law.data = none) :
    ∃ b, compute_tax gi law = .ok b ∧
      b.basic_deduction_limit = 0 ∧ b.basic_deduction = 0 ∧ b.taxable_base = 0 ∧
      b.tax_due = none ∧ b.law_configured = false ∧ b.applied_rate = none ∧
      b.progressive_deduction = none ∧ b.notes = [Note.lawUnconfigured] := by
  obtain ⟨data, configured⟩ := law
  simp only at h
  rcases h with h | h
  · subst h
    cases data with
    | none =>
        exact ⟨_, rfl, by simp [degradedBreakdown, echoBreakdown]⟩
    | some d =>
        exact ⟨_, rfl, by simp [degradedBreakdown, echoBreakdown]⟩
  · subst h
    cases configured with
    | false => exact ⟨_, rfl, by simp [degradedBreakdown, echoBreakdown]⟩
    | true => exact ⟨_, rfl, by simp [degradedBreakdown, echoBreakdown]⟩

/-- Witness for C2 at a concrete input and the absent law table. -/
theorem compute_tax_degraded_path_witness :
    (lawUnconfigured0.configured = false ∨ lawUnconfigured0.data = none) ∧
    (∃ b, compute_tax (mkGiftInput "spouse" "resident" 100 0 0) lawUnconfigured0 = .ok b ∧
      b.basic_deduction_limit = 0 ∧ b.basic_deduction = 0 ∧ b.taxable_base = 0 ∧
      b.tax_due = none ∧ b.law_configured = false ∧ b.applied_rate = none ∧
      b.progressive_deduction = none ∧ b.notes = [Note.lawUnconfigured]) :=
  ⟨Or.inl rfl,
    compute_tax_degraded_path (mkGiftInput "spouse" "resident" 100 0 0) lawUnconfigured0
      (Or.inl rfl)⟩

/-- C6: in a configured, non-empty law context whose basic_deduction
table has no entry for the residency/relationship pair, compute_tax
returns law_configured false, zeroed limit, deduction and base, no tax,
and the explanatory note -- no default limit is substituted. -/
theorem compute_tax_missing_key (gi : GiftInput) (d : LawData)
    (h : dictGet2 d.basic_deduction gi.residency_status gi.relationship = none) :
    ∃ b, compute_tax gi { data := some d, configured := true } = .ok b ∧
      b.law_configured = false ∧ b.basic_deduction_limit = 0 ∧ b.basic_deduction = 0 ∧
      b.taxable_base = 0 ∧ b.tax_due = none ∧ b.notes = [Note.missingDeduction] := by
  refine ⟨missingKeyBreakdown gi d, ?_, by simp [missingKeyBreakdown, echoBreakdown]⟩
  show lookupStep gi d (dictGet2 d.basic_deduction gi.residency_status gi.relationship) =
    Except.ok (missingKeyBreakdown gi d)
  rw [h]
  rfl

/-- Witness for C6: the modelled law table has no entry for an unlisted
relationship key. -/
theorem compute_tax_missing_key_witness :
    (dictGet2 korLawData.basic_deduction
        (mkGiftInput "cousin" "resident" 100 0 0).residency_status
        (mkGiftInput "cousin" "resident" 100 0 0).relationship = none) ∧
    (∃ b, compute_tax (mkGiftInput "cousin" "resident" 100 0 0)
        { data := some korLawData, configured := true } = .ok b ∧
      b.law_configured = false ∧ b.basic_deduction_limit = 0 ∧ b.basic_deduction = 0 ∧
      b.taxable_base = 0 ∧ b.tax_due = none ∧ b.notes = [Note.missingDeduction]) :=
  ⟨rfl, compute_tax_missing_key (mkGiftInput "cousin" "resident" 100 0 0) korLawData rfl⟩

/-- C4: whenever the bracket search matches the (non-zero) taxable base,
the tax due is max(0, base * rate - progressive_deduction) rounded
half-up to a whole unit, and the matched bracket's rate and deduction
are recorded. -/
theorem compute_tax_bracket_formula (gi : GiftInput) (d : LawData) (limit : ℚ)
    (br : NormBracket)
    (hlook : dictGet2 d.basic_deduction gi.residency_status gi.relationship =
      some (RawScalar.num limit))
    (hbase : taxableBaseOf gi limit ≠ 0)
    (hfind : find_progressive_bracket d.progressive_rates (taxableBaseOf gi limit) =
      .ok (some br)) :
    ∃ b, compute_tax gi { data := some d, configured := true } = .ok b ∧
      b.tax_due = some
        ((⌊max 0 (taxableBaseOf gi limit * br.rate - br.deduction) + 1 / 2⌋ : ℤ) : ℚ) ∧
      b.applied_rate = some br.rate ∧
      b.progressive_deduction = some br.deduction := by
  refine ⟨matchedBreakdown gi d limit br, ?_, ?_, ?_, ?_⟩
  · show lookupStep gi d (dictGet2 d.basic_deduction gi.residency_status gi.relationship) =
      Except.ok (matchedBreakdown gi d limit br)
    rw [hlook]
    show baseStep gi d limit = Except.ok (matchedBreakdown gi d limit br)
    rw [baseStep, if_neg hbase, hfind]
    rfl
  · show some ((quantizeHalfUp (if taxableBaseOf gi limit * br.rate - br.deduction < 0
        then 0 else taxableBaseOf gi limit * br.rate - br.deduction) : ℤ) : ℚ) = _
    rw [clamp_eq_max, quantizeHalfUp_of_nonneg _ (le_max_left _ _)]
  · simp [matchedBreakdown]
  · simp [matchedBreakdown]

set_option maxHeartbeats 800000 in
/-- Witness for C4: the second-bracket scenario of the test suite, base
110,000,000 at 20% with 10,000,000 progressive deduction. -/
theorem compute_tax_bracket_formula_witness :
    (dictGet2 korLawData.basic_deduction
        (mkGiftInput "lineal_descendant_adult" "resident" 160000000 0 0).residency_status
        (mkGiftInput "lineal_descendant_adult" "resident" 160000000 0 0).relationship =
      some (RawScalar.num 50000000)) ∧
    (taxableBaseOf (mkGiftInput "lineal_descendant_adult" "resident" 160000000 0 0)
        50000000 ≠ 0) ∧
    (find_progressive_bracket korLawData.progressive_rates
        (taxableBaseOf (mkGiftInput "lineal_descendant_adult" "resident" 160000000 0 0)
          50000000) =
      .ok (some { min := 100000000, max := some 500000000, rate := 2 / 10,
                  deduction := 10000000 })) ∧
    (∃ b, compute_tax (mkGiftInput "lineal_descendant_adult" "resident" 160000000 0 0)
        { data := some korLawData, configured := true } = .ok b ∧
      b.tax_due = some
        ((⌊max 0 (taxableBaseOf (mkGiftInput "lineal_descendant_adult" "resident"
              160000000 0 0) 50000000 * (2 / 10) - 10000000) + 1 / 2⌋ : ℤ) : ℚ) ∧
      b.applied_rate = some (2 / 10) ∧
      b.progressive_deduction = some 10000000) := by
  have hbase : taxableBaseOf (mkGiftInput "lineal_descendant_adult" "resident"
      160000000 0 0) 50000000 = 110000000 := by
    norm_num [taxableBaseOf, netGift, basicDeductionApplied, priorAdjustment, mkGiftInput]
  have hb2 : taxableBaseOf (mkGiftInput "lineal_descendant_adult" "resident"
      160000000 0 0) 50000000 ≠ 0 := by
    rw [hbase]
    norm_num
  have hfind : find_progressive_bracket korLawData.progressive_rates
      (taxableBaseOf (mkGiftInput "lineal_descendant_adult" "resident" 160000000 0 0)
        50000000) =
      .ok (some { min := 100000000, max := some 500000000, rate := 2 / 10,
                  deduction := 10000000 }) := by
    rw [hbase]
    simp [find_progressive_bracket, findFromNormalized, normalizeBrackets, normalizeBracket,
      nbWithMin, nbWithMax, nbWithRate, nbWithRateVal, nbFinish, normMax, normMaxVal,
      consNormalized, RawScalar.toDecimal, korLawData, korProgressiveRates, sortByMin,
      insertByMin, selectBracket]
    norm_num
  refine ⟨rfl, hb2, hfind, ?_⟩
  have happ := compute_tax_bracket_formula (mkGiftInput "lineal_descendant_adult" "resident"
      160000000 0 0) korLawData 50000000 _ rfl hb2 hfind
  exact happ

/-- C10: whenever the returned breakdown carries a tax_due value, that
value is a non-negative whole number of currency units: every path
either sets it to exactly zero or clamps at zero and quantizes to a
whole unit. -/
theorem tax_due_whole_and_nonneg (gi : GiftInput) (law : LawContext) (b : GiftBreakdown)
    (t : ℚ) (hok : compute_tax gi law = .ok b) (ht : b.tax_due = some t) :
    ∃ n : ℕ, t = (n : ℚ) := by
  rcases compute_tax_ok_cases gi law b hok with ⟨_, rfl⟩ | ⟨d, _, _, hcase⟩
  · simp [degradedBreakdown, echoBreakdown] at ht
  · rcases hcase with ⟨_, rfl⟩ | ⟨limit, _, hcase2⟩
    · simp [missingKeyBreakdown, echoBreakdown] at ht
    · rcases hcase2 with ⟨_, rfl⟩ | ⟨_, hcase3⟩
      · simp [zeroBaseBreakdown, successBreakdown] at ht
        exact ⟨0, by simp [← ht]⟩
      · rcases hcase3 with ⟨_, rfl⟩ | ⟨br, _, rfl⟩
        · simp [noBracketBreakdown, successBreakdown, echoBreakdown] at ht
        · simp only [matchedBreakdown] at ht
          simp at ht
          have h1 : (0:ℚ) ≤ (if taxableBaseOf gi limit * br.rate < br.deduction then 0
              else taxableBaseOf gi limit * br.rate - br.deduction) := by
            split_ifs with hc
            · exact le_refl 0
            · linarith
          have h2 := quantizeHalfUp_nonneg _ h1
          refine ⟨(quantizeHalfUp (if taxableBaseOf gi limit * br.rate < br.deduction
              then 0 else taxableBaseOf gi limit * br.rate - br.deduction)).toNat, ?_⟩
          rw [← ht]
          exact_mod_cast (Int.toNat_of_nonneg h2).symm

set_option maxHeartbeats 800000 in
/-- Witness for C10: the non-resident scenario yields tax 5,000,000, a
whole non-negative amount. -/
theorem tax_due_whole_and_nonneg_witness :
    ∃ b, compute_tax (mkGiftInput "others" "non_resident" 60000000 0 0)
        korLawContext2025 = .ok b ∧
      b.tax_due = some 5000000 ∧ ∃ n : ℕ, (5000000 : ℚ) = (n : ℚ) := by
  have h : ∃ b, compute_tax (mkGiftInput "others" "non_resident" 60000000 0 0)
      korLawContext2025 = .ok b ∧ b.tax_due = some 5000000 := by
    simp [compute_tax, computeConfigured, korLawContext2025, korLawData, korBasicDeduction,
      korProgressiveRates, mkGiftInput, dictGet2, dictGet, RawScalar.toDecimal, taxableBaseOf,
      netGift, basicDeductionApplied, priorAdjustment, priorNotes, echoBreakdown,
      successBreakdown, zeroBaseBreakdown, noBracketBreakdown, matchedBreakdown,
      missingKeyBreakdown, find_progressive_bracket, findFromNormalized, normalizeBrackets,
      normalizeBracket, nbWithMin, nbWithMax, nbWithRate, nbWithRateVal, nbFinish, normMax,
      normMaxVal, consNormalized, sortByMin, insertByMin, selectBracket, lookupStep,
      limitStep, baseStep, bracketStep, quantizeHalfUp, intTrunc]
    norm_num
  obtain ⟨b, hok, ht⟩ := h
  exact ⟨b, hok, ht,
    tax_due_whole_and_nonneg (mkGiftInput "others" "non_resident" 60000000 0 0)
      korLawContext2025 b 5000000 hok ht⟩

/-- C5 (amended): the deduction equation basic_deduction =
max(0, limit - adjustment) holds on every returned breakdown; the cap
equation adjustment = min(prior_gifts, limit) holds exactly on the
configured path past a successful lookup (law_configured true), while
the degraded and missing-key paths echo prior_gifts uncapped with a zero
limit. -/
theorem deduction_equations_amended (gi : GiftInput) (law : LawContext) (b : GiftBreakdown)
    (hval : gi.Valid) (hok : compute_tax gi law = .ok b) :
    b.basic_deduction = max 0 (b.basic_deduction_limit - b.prior_gifts_adjustment) ∧
    (b.law_configured = true →
      b.prior_gifts_adjustment = min gi.prior_gifts b.basic_deduction_limit) ∧
    (b.law_configured = false →
      b.prior_gifts_adjustment = gi.prior_gifts ∧ b.basic_deduction_limit = 0) := by
  obtain ⟨-, -, -, -, -, -, hprior⟩ := hval
  rcases compute_tax_ok_cases gi law b hok with ⟨hdeg, rfl⟩ | ⟨d, -, -, hcase⟩
  · refine ⟨?_, ?_, fun _ => ⟨rfl, rfl⟩⟩
    · simp only [degradedBreakdown, echoBreakdown]
      rw [max_eq_left (by linarith)]
    · intro htrue
      exfalso
      simp only [degradedBreakdown, echoBreakdown, Bool.and_eq_true] at htrue
      rcases hdeg with h | h
      · rw [h] at htrue
        exact Bool.false_ne_true htrue.1
      · rw [h] at htrue
        exact Bool.false_ne_true htrue.2
  · rcases hcase with ⟨-, rfl⟩ | ⟨limit, -, hcase2⟩
    · refine ⟨?_, by simp [missingKeyBreakdown, echoBreakdown], fun _ => ⟨rfl, rfl⟩⟩
      simp only [missingKeyBreakdown, echoBreakdown]
      rw [max_eq_left (by linarith)]
    · have hshared : ∀ d2 : LawData, ∀ limit2 : ℚ,
          (successBreakdown gi d2 limit2).basic_deduction =
            max 0 ((successBreakdown gi d2 limit2).basic_deduction_limit -
              (successBreakdown gi d2 limit2).prior_gifts_adjustment) ∧
          (successBreakdown gi d2 limit2).prior_gifts_adjustment =
            min gi.prior_gifts (successBreakdown gi d2 limit2).basic_deduction_limit := by
        intro d2 limit2
        constructor
        · simp only [successBreakdown, echoBreakdown]
          exact basicDeductionApplied_eq_max gi.prior_gifts limit2
        · simp only [successBreakdown, echoBreakdown]
          exact priorAdjustment_eq_min gi.prior_gifts limit2
      rcases hcase2 with ⟨-, rfl⟩ | ⟨-, (⟨-, rfl⟩ | ⟨br, -, rfl⟩)⟩
      · exact ⟨(hshared d limit).1, fun _ => (hshared d limit).2, by simp [zeroBaseBreakdown, successBreakdown, echoBreakdown]⟩
      · exact ⟨(hshared d limit).1, fun _ => (hshared d limit).2, by simp [noBracketBreakdown, successBreakdown, echoBreakdown]⟩
      · exact ⟨(hshared d limit).1, fun _ => (hshared d limit).2, by simp [matchedBreakdown, successBreakdown, echoBreakdown]⟩

/-- Counterexample for C5 as stated: with the absent law table and prior
gifts 5,000,000, the breakdown carries prior_gifts_adjustment 5,000,000
whereas min(prior_gifts, basic_deduction_limit) = min(5000000, 0) =
0. -/
theorem prior_adjustment_cap_counterexample :
    ∃ b, compute_tax (mkGiftInput "spouse" "resident" 10000000 0 5000000)
        lawUnconfigured0 = .ok b ∧
      b.prior_gifts_adjustment ≠
        min (mkGiftInput "spouse" "resident" 10000000 0 5000000).prior_gifts
          b.basic_deduction_limit := by
  refine ⟨degradedBreakdown (mkGiftInput "spouse" "resident" 10000000 0 5000000)
    lawUnconfigured0, rfl, ?_⟩
  simp [degradedBreakdown, echoBreakdown, mkGiftInput]

/-- Witness for C5 (amended) at the minor-with-prior-gifts scenario. -/
theorem deduction_equations_amended_witness :
    ∃ b, compute_tax (mkGiftInput "lineal_descendant_minor" "resident" 30000000 0 5000000)
        korLawContext2025 = .ok b ∧
      (b.basic_deduction = max 0 (b.basic_deduction_limit - b.prior_gifts_adjustment) ∧
       (b.law_configured = true →
         b.prior_gifts_adjustment =
           min (mkGiftInput "lineal_descendant_minor" "resident" 30000000 0
             5000000).prior_gifts b.basic_deduction_limit) ∧
       (b.law_configured = false →
         b.prior_gifts_adjustment =
           (mkGiftInput "lineal_descendant_minor" "resident" 30000000 0 5000000).prior_gifts ∧
         b.basic_deduction_limit = 0)) := by
  have h : ∃ b, compute_tax (mkGiftInput "lineal_descendant_minor" "resident"
      30000000 0 5000000) korLawContext2025 = .ok b := by
    simp [compute_tax, computeConfigured, korLawContext2025, korLawData, korBasicDeduction,
      korProgressiveRates, mkGiftInput, dictGet2, dictGet, RawScalar.toDecimal, taxableBaseOf,
      netGift, basicDeductionApplied, priorAdjustment, priorNotes, echoBreakdown,
      successBreakdown, zeroBaseBreakdown, noBracketBreakdown, matchedBreakdown,
      missingKeyBreakdown, find_progressive_bracket, findFromNormalized, normalizeBrackets,
      normalizeBracket, nbWithMin, nbWithMax, nbWithRate, nbWithRateVal, nbFinish, normMax,
      normMaxVal, consNormalized, sortByMin, insertByMin, selectBracket, lookupStep,
      limitStep, baseStep, bracketStep, quantizeHalfUp, intTrunc]
    norm_num
  obtain ⟨b, hok⟩ := h
  exact ⟨b, hok,
    deduction_equations_amended (mkGiftInput "lineal_descendant_minor" "resident"
      30000000 0 5000000) korLawContext2025 b (by decide) hok⟩

/-- C7 (amended): net_gift = max(0, property_value - debt_assumed) on
every returned breakdown; taxable_base = max(0, net_gift -
basic_deduction) on the configured path past a successful lookup
(law_configured true), while the degraded and missing-key paths return
taxable_base = 0 regardless of the net gift. -/
theorem stage_floors_amended (gi : GiftInput) (law : LawContext) (b : GiftBreakdown)
    (hok : compute_tax gi law = .ok b) :
    b.net_gift = max 0 (gi.property_value - gi.debt_assumed) ∧
    (b.law_configured = true → b.taxable_base = max 0 (b.net_gift - b.basic_deduction)) ∧
    (b.law_configured = false → b.taxable_base = 0) := by
  rcases compute_tax_ok_cases gi law b hok with ⟨hdeg, rfl⟩ | ⟨d, -, -, hcase⟩
  · refine ⟨netGift_eq_max gi, ?_, fun _ => rfl⟩
    intro htrue
    exfalso
    simp only [degradedBreakdown, echoBreakdown, Bool.and_eq_true] at htrue
    rcases hdeg with h | h
    · rw [h] at htrue
      exact Bool.false_ne_true htrue.1
    · rw [h] at htrue
      exact Bool.false_ne_true htrue.2
  · have hsucc : ∀ limit2 : ℚ,
        taxableBaseOf gi limit2 =
          max 0 (netGift gi - basicDeductionApplied gi.prior_gifts limit2) :=
      fun limit2 => taxableBaseOf_eq_max gi limit2
    rcases hcase with ⟨-, rfl⟩ | ⟨limit, -, (⟨-, rfl⟩ | ⟨-, (⟨-, rfl⟩ | ⟨br, -, rfl⟩)⟩)⟩
    · exact ⟨netGift_eq_max gi, by simp [missingKeyBreakdown, echoBreakdown], fun _ => rfl⟩
    · exact ⟨netGift_eq_max gi, fun _ => hsucc limit, by simp [zeroBaseBreakdown, successBreakdown, echoBreakdown]⟩
    · exact ⟨netGift_eq_max gi, fun _ => hsucc limit, by simp [noBracketBreakdown, successBreakdown, echoBreakdown]⟩
    · exact ⟨netGift_eq_max gi, fun _ => hsucc limit, by simp [matchedBreakdown, successBreakdown, echoBreakdown]⟩

/-- Counterexample for C7 as stated: with the absent law table and
property 100,000,000, taxable_base is 0 although
max(0, net_gift - basic_deduction) is 100,000,000. -/
theorem taxable_base_equation_counterexample :
    ∃ b, compute_tax (mkGiftInput "spouse" "resident" 100000000 0 0)
        lawUnconfigured0 = .ok b ∧
      b.taxable_base ≠ max 0 (b.net_gift - b.basic_deduction) := by
  refine ⟨degradedBreakdown (mkGiftInput "spouse" "resident" 100000000 0 0)
    lawUnconfigured0, rfl, ?_⟩
  simp [degradedBreakdown, echoBreakdown, netGift, mkGiftInput]
  norm_num

/-- Witness for C7 (amended) at the debt-exceeds-value scenario. -/
theorem stage_floors_amended_witness :
    ∃ b, compute_tax (mkGiftInput "lineal_descendant_adult" "resident" 10000000 12000000 0)
        korLawContext2025 = .ok b ∧
      (b.net_gift = max 0 ((mkGiftInput "lineal_descendant_adult" "resident" 10000000
          12000000 0).property_value -
        (mkGiftInput "lineal_descendant_adult" "resident" 10000000 12000000 0).debt_assumed) ∧
       (b.law_configured = true → b.taxable_base = max 0 (b.net_gift - b.basic_deduction)) ∧
       (b.law_configured = false → b.taxable_base = 0)) := by
  have h : ∃ b, compute_tax (mkGiftInput "lineal_descendant_adult" "resident"
      10000000 12000000 0) korLawContext2025 = .ok b := by
    simp [compute_tax, computeConfigured, korLawContext2025, korLawData, korBasicDeduction,
      korProgressiveRates, mkGiftInput, dictGet2, dictGet, RawScalar.toDecimal, taxableBaseOf,
      netGift, basicDeductionApplied, priorAdjustment, priorNotes, echoBreakdown,
      successBreakdown, zeroBaseBreakdown, noBracketBreakdown, matchedBreakdown,
      missingKeyBreakdown, find_progressive_bracket, findFromNormalized, normalizeBrackets,
      normalizeBracket, nbWithMin, nbWithMax, nbWithRate, nbWithRateVal, nbFinish, normMax,
      normMaxVal, consNormalized, sortByMin, insertByMin, selectBracket, lookupStep,
      limitStep, baseStep, bracketStep, quantizeHalfUp, intTrunc]
    norm_num
  obtain ⟨b, hok⟩ := h
  exact ⟨b, hok,
    stage_floors_amended (mkGiftInput "lineal_descendant_adult" "resident" 10000000
      12000000 0) korLawContext2025 b hok⟩

/-- C9 (amended): with positive prior gifts, the prior-gift note is in
the notes exactly on the configured path past a successful lookup
(law_configured true): the zero-base, matched-bracket and no-bracket
branches; the degraded and missing-key early returns append no such
note. -/
theorem prior_note_amended (gi : GiftInput) (law : LawContext) (b : GiftBreakdown)
    (hpos : 0 < gi.prior_gifts) (hok : compute_tax gi law = .ok b) :
    (b.law_configured = true →
      Note.priorGiftsReduced (intTrunc gi.prior_gifts) ∈ b.notes) ∧
    (b.law_configured = false → ∀ a, Note.priorGiftsReduced a ∉ b.notes) := by
  have hne : gi.prior_gifts ≠ 0 := ne_of_gt hpos
  rcases compute_tax_ok_cases gi law b hok with ⟨hdeg, rfl⟩ | ⟨d, -, -, hcase⟩
  · refine ⟨?_, ?_⟩
    · intro htrue
      exfalso
      simp only [degradedBreakdown, echoBreakdown, Bool.and_eq_true] at htrue
      rcases hdeg with h | h
      · rw [h] at htrue
        exact Bool.false_ne_true htrue.1
      · rw [h] at htrue
        exact Bool.false_ne_true htrue.2
    · intro _hfalse a
      simp [degradedBreakdown, echoBreakdown]
  · rcases hcase with ⟨-, rfl⟩ | ⟨limit, -, (⟨-, rfl⟩ | ⟨-, (⟨-, rfl⟩ | ⟨br, -, rfl⟩)⟩)⟩
    · exact ⟨by simp [missingKeyBreakdown, echoBreakdown],
        fun _ a => by simp [missingKeyBreakdown, echoBreakdown]⟩
    · exact ⟨fun _ => by simp [zeroBaseBreakdown, successBreakdown, echoBreakdown, priorNotes, hne],
        by simp [zeroBaseBreakdown, successBreakdown, echoBreakdown]⟩
    · exact ⟨fun _ => by simp [noBracketBreakdown, successBreakdown, echoBreakdown, priorNotes, hne],
        by simp [noBracketBreakdown, successBreakdown, echoBreakdown]⟩
    · exact ⟨fun _ => by simp [matchedBreakdown, successBreakdown, echoBreakdown, priorNotes, hne],
        by simp [matchedBreakdown, successBreakdown, echoBreakdown]⟩

/-- Counterexample for C9 as stated: with the absent law table and prior
gifts 7,000,000 the notes contain no prior-gift note. -/
theorem prior_note_counterexample :
    ∃ b, compute_tax (mkGiftInput "spouse" "resident" 10000000 0 7000000)
        lawUnconfigured0 = .ok b ∧
      0 < (mkGiftInput "spouse" "resident" 10000000 0 7000000).prior_gifts ∧
      ∀ a, Note.priorGiftsReduced a ∉ b.notes := by
  refine ⟨degradedBreakdown (mkGiftInput "spouse" "resident" 10000000 0 7000000)
    lawUnconfigured0, rfl, by norm_num [mkGiftInput], ?_⟩
  intro a
  simp [degradedBreakdown, echoBreakdown]

/-- Witness for C9 (amended) at a minor-with-prior-gifts input. -/
theorem prior_note_amended_witness :
    (0 < (mkGiftInput "lineal_descendant_minor" "resident" 30000000 0 6000000).prior_gifts) ∧
    ∃ b, compute_tax (mkGiftInput "lineal_descendant_minor" "resident" 30000000 0 6000000)
        korLawContext2025 = .ok b ∧
      ((b.law_configured = true →
        Note.priorGiftsReduced (intTrunc (mkGiftInput "lineal_descendant_minor" "resident"
          30000000 0 6000000).prior_gifts) ∈ b.notes) ∧
       (b.law_configured = false → ∀ a, Note.priorGiftsReduced a ∉ b.notes)) := by
  have h : ∃ b, compute_tax (mkGiftInput "lineal_descendant_minor" "resident"
      30000000 0 6000000) korLawContext2025 = .ok b := by
    simp [compute_tax, computeConfigured, korLawContext2025, korLawData, korBasicDeduction,
      korProgressiveRates, mkGiftInput, dictGet2, dictGet, RawScalar.toDecimal, taxableBaseOf,
      netGift, basicDeductionApplied, priorAdjustment, priorNotes, echoBreakdown,
      successBreakdown, zeroBaseBreakdown, noBracketBreakdown, matchedBreakdown,
      missingKeyBreakdown, find_progressive_bracket, findFromNormalized, normalizeBrackets,
      normalizeBracket, nbWithMin, nbWithMax, nbWithRate, nbWithRateVal, nbFinish, normMax,
      normMaxVal, consNormalized, sortByMin, insertByMin, selectBracket, lookupStep,
      limitStep, baseStep, bracketStep, quantizeHalfUp, intTrunc]
    norm_num
  obtain ⟨b, hok⟩ := h
  exact ⟨by norm_num [mkGiftInput], b, hok,
    prior_note_amended (mkGiftInput "lineal_descendant_minor" "resident" 30000000 0 6000000)
      korLawContext2025 b (by norm_num [mkGiftInput]) hok⟩

/-- C1 (code bug): on a configured context whose deduction-limit entry
for the input's residency/relationship pair is non-numeric, the embedded
compute_tax raises decimal.InvalidOperation instead of returning a
breakdown: the except clause at the lookup catches only KeyError. -/
theorem compute_tax_raises_on_nonnumeric_deduction :
    compute_tax (mkGiftInput "spouse" "resident" 1000 0 0) lawBadDeductionValue =
      .error PyErr.invalidOperation := rfl

/-- C3 (code bug): on a configured context with a positive taxable base
and a progressive bracket whose min field is non-numeric, the embedded
compute_tax raises decimal.InvalidOperation instead of skipping the
bracket: the normalization except clause lists only KeyError, ValueError
and TypeError. -/
theorem compute_tax_raises_on_nonnumeric_bracket :
    compute_tax (mkGiftInput "spouse" "resident" 1000 0 0) lawBadBracketField =
      .error PyErr.invalidOperation := by
  simp [compute_tax, computeConfigured, lawBadBracketField, emptyMetadata, mkGiftInput,
    dictGet2, dictGet, RawScalar.toDecimal, taxableBaseOf, netGift, basicDeductionApplied,
    priorAdjustment, lookupStep, limitStep, baseStep, bracketStep, find_progressive_bracket,
    findFromNormalized, normalizeBrackets, normalizeBracket, nbWithMin, nbWithMax, nbWithRate,
    nbWithRateVal, nbFinish, normMax, normMaxVal, consNormalized]
  norm_num

/-- Counterexample for C8 as stated over every LawContext: under a
decreasing rate schedule, raising the property value from 100 to 200
drops the tax due from 100 to 0. -/
theorem monotonicity_counterexample :
    ∃ b1 b2 t1 t2,
      compute_tax (mkGiftInput "spouse" "resident" 100 0 0) lawAdversarial = .ok b1 ∧
      compute_tax (mkGiftInput "spouse" "resident" 200 0 0) lawAdversarial = .ok b2 ∧
      b1.tax_due = some t1 ∧ b2.tax_due = some t2 ∧
      (mkGiftInput "spouse" "resident" 100 0 0).property_value ≤
        (mkGiftInput "spouse" "resident" 200 0 0).property_value ∧
      t2 < t1 := by
  have h1 : ∃ b, compute_tax (mkGiftInput "spouse" "resident" 100 0 0) lawAdversarial =
      .ok b ∧ b.tax_due = some 100 := by
    simp [compute_tax, computeConfigured, lawAdversarial, emptyMetadata, mkGiftInput,
      dictGet2, dictGet, RawScalar.toDecimal, taxableBaseOf, netGift, basicDeductionApplied,
      priorAdjustment, priorNotes, echoBreakdown, successBreakdown, zeroBaseBreakdown,
      noBracketBreakdown, matchedBreakdown, missingKeyBreakdown, find_progressive_bracket,
      findFromNormalized, normalizeBrackets, normalizeBracket, nbWithMin, nbWithMax,
      nbWithRate, nbWithRateVal, nbFinish, normMax, normMaxVal, consNormalized, sortByMin,
      insertByMin, selectBracket, lookupStep, limitStep, baseStep, bracketStep,
      quantizeHalfUp, intTrunc]
    norm_num
  have h2 : ∃ b, compute_tax (mkGiftInput "spouse" "resident" 200 0 0) lawAdversarial =
      .ok b ∧ b.tax_due = some 0 := by
    simp [compute_tax, computeConfigured, lawAdversarial, emptyMetadata, mkGiftInput,
      dictGet2, dictGet, RawScalar.toDecimal, taxableBaseOf, netGift, basicDeductionApplied,
      priorAdjustment, priorNotes, echoBreakdown, successBreakdown, zeroBaseBreakdown,
      noBracketBreakdown, matchedBreakdown, missingKeyBreakdown, find_progressive_bracket,
      findFromNormalized, normalizeBrackets, normalizeBracket, nbWithMin, nbWithMax,
      nbWithRate, nbWithRateVal, nbFinish, normMax, normMaxVal, consNormalized, sortByMin,
      insertByMin, selectBracket, lookupStep, limitStep, baseStep, bracketStep,
      quantizeHalfUp, intTrunc]
    norm_num
  obtain ⟨b1, hok1, ht1⟩ := h1
  obtain ⟨b2, hok2, ht2⟩ := h2
  exact ⟨b1, b2, 100, 0, hok1, hok2, ht1, ht2, by norm_num [mkGiftInput], by norm_num⟩

theorem kor_normalized : normalizeBrackets korProgressiveRates = .ok korNorm := rfl

theorem kor_sorted : sortByMin korNorm = korNorm := rfl

theorem korRawTax_mono (x y : ℚ) (hxy : x ≤ y) : korRawTax x ≤ korRawTax y := by
  unfold korRawTax
  split_ifs <;> linarith

theorem korTax_mono (x y : ℚ) (hxy : x ≤ y) : korTax x ≤ korTax y := by
  unfold korTax
  have h1 : max 0 (korRawTax x) ≤ max 0 (korRawTax y) :=
    max_le_max (le_refl 0) (korRawTax_mono x y hxy)
  exact_mod_cast Int.floor_le_floor (by linarith)

theorem selectBracket_cons (br : NormBracket) (rest : List NormBracket) (tb : ℚ) :
    selectBracket (br :: rest) tb =
      if br.min ≤ tb ∧ (∀ m ∈ br.max, tb ≤ m) then some br
      else selectBracket rest tb := rfl

theorem bracket_cond_some {mn mx tb : ℚ} (h1 : mn ≤ tb) (h2 : tb ≤ mx) :
    mn ≤ tb ∧ (∀ m ∈ (some mx : Option ℚ), tb ≤ m) := by
  refine ⟨h1, fun m hm => ?_⟩
  simp only [Option.mem_def, Option.some.injEq] at hm
  exact hm ▸ h2

theorem bracket_cond_none {mn tb : ℚ} (h1 : mn ≤ tb) :
    mn ≤ tb ∧ (∀ m ∈ (none : Option ℚ), tb ≤ m) := by
  refine ⟨h1, fun m hm => ?_⟩
  simp at hm

theorem bracket_cond_not_of_gt {mn mx tb : ℚ} (h : mx < tb) :
    ¬(mn ≤ tb ∧ (∀ m ∈ (some mx : Option ℚ), tb ≤ m)) := by
  rintro ⟨-, hall⟩
  exact absurd (hall mx rfl) (not_le.mpr h)

theorem kor_find (tb : ℚ) (h : 0 < tb) :
    find_progressive_bracket korProgressiveRates tb = .ok (some (korBracketAt tb)) := by
  have h0 : find_progressive_bracket korProgressiveRates tb =
      .ok (selectBracket (sortByMin korNorm) tb) := rfl
  rw [h0, kor_sorted]
  unfold korBracketAt korNorm
  by_cases h1 : tb ≤ 100000000
  · rw [selectBracket_cons, if_pos (bracket_cond_some (le_of_lt h) h1), if_pos h1]
  · rw [selectBracket_cons, if_neg (bracket_cond_not_of_gt (not_le.mp h1)), if_neg h1]
    by_cases h2 : tb ≤ 500000000
    · rw [selectBracket_cons, if_pos (bracket_cond_some (le_of_lt (not_le.mp h1)) h2),
        if_pos h2]
    · rw [selectBracket_cons, if_neg (bracket_cond_not_of_gt (not_le.mp h2)), if_neg h2]
      by_cases h3 : tb ≤ 1000000000
      · rw [selectBracket_cons, if_pos (bracket_cond_some (le_of_lt (not_le.mp h2)) h3),
          if_pos h3]
      · rw [selectBracket_cons, if_neg (bracket_cond_not_of_gt (not_le.mp h3)), if_neg h3]
        by_cases h4 : tb ≤ 3000000000
        · rw [selectBracket_cons, if_pos (bracket_cond_some (le_of_lt (not_le.mp h3)) h4),
            if_pos h4]
        · rw [selectBracket_cons, if_neg (bracket_cond_not_of_gt (not_le.mp h4)), if_neg h4,
            selectBracket_cons, if_pos (bracket_cond_none (le_of_lt (not_le.mp h4)))]

theorem korBracketAt_formula (tb : ℚ) :
    tb * (korBracketAt tb).rate - (korBracketAt tb).deduction = korRawTax tb := by
  unfold korBracketAt korRawTax
  split_ifs <;> norm_num

theorem compute_tax_kor_eval (gi : GiftInput) (limit : ℚ)
    (hlook : dictGet2 korBasicDeduction gi.residency_status gi.relationship =
      some (RawScalar.num limit)) :
    ∃ b, compute_tax gi korLawContext2025 = .ok b ∧
      b.tax_due = some (korTax (taxableBaseOf gi limit)) := by
  have hnn : 0 ≤ taxableBaseOf gi limit := by
    simp only [taxableBaseOf]
    split_ifs with hc
    · exact le_refl 0
    · exact le_of_not_lt hc
  by_cases hb : taxableBaseOf gi limit = 0
  · refine ⟨zeroBaseBreakdown gi korLawData limit, ?_, ?_⟩
    · show lookupStep gi korLawData
        (dictGet2 korBasicDeduction gi.residency_status gi.relationship) =
        Except.ok (zeroBaseBreakdown gi korLawData limit)
      rw [hlook]
      show baseStep gi korLawData limit = Except.ok (zeroBaseBreakdown gi korLawData limit)
      rw [baseStep, if_pos hb]
    · show some 0 = some (korTax (taxableBaseOf gi limit))
      rw [hb]
      norm_num [korTax, korRawTax]
  · have hpos : 0 < taxableBaseOf gi limit := lt_of_le_of_ne hnn (Ne.symm hb)
    refine ⟨matchedBreakdown gi korLawData limit (korBracketAt (taxableBaseOf gi limit)),
      ?_, ?_⟩
    · show lookupStep gi korLawData
        (dictGet2 korBasicDeduction gi.residency_status gi.relationship) =
        Except.ok (matchedBreakdown gi korLawData limit
          (korBracketAt (taxableBaseOf gi limit)))
      rw [hlook]
      show baseStep gi korLawData limit = Except.ok (matchedBreakdown gi korLawData limit
        (korBracketAt (taxableBaseOf gi limit)))
      rw [baseStep, if_neg hb]
      show bracketStep gi korLawData limit
        (find_progressive_bracket korProgressiveRates (taxableBaseOf gi limit)) =
        Except.ok (matchedBreakdown gi korLawData limit
          (korBracketAt (taxableBaseOf gi limit)))
      rw [kor_find _ hpos]
      rfl
    · show some ((quantizeHalfUp (if taxableBaseOf gi limit *
          (korBracketAt (taxableBaseOf gi limit)).rate -
          (korBracketAt (taxableBaseOf gi limit)).deduction < 0 then 0
          else taxableBaseOf gi limit * (korBracketAt (taxableBaseOf gi limit)).rate -
            (korBracketAt (taxableBaseOf gi limit)).deduction) : ℤ) : ℚ) =
        some (korTax (taxableBaseOf gi limit))
      rw [clamp_eq_max, quantizeHalfUp_of_nonneg _ (le_max_left _ _),
        korBracketAt_formula]
      rfl

theorem taxableBaseOf_mono (gi1 gi2 : GiftInput) (limit : ℚ)
    (hdebt : gi1.debt_assumed = gi2.debt_assumed)
    (hprior : gi1.prior_gifts = gi2.prior_gifts)
    (hpv : gi1.property_value ≤ gi2.property_value) :
    taxableBaseOf gi1 limit ≤ taxableBaseOf gi2 limit := by
  simp only [taxableBaseOf, netGift, basicDeductionApplied, priorAdjustment, hdebt, hprior]
  split_ifs <;> linarith

/-- C8 (amended): on the spec-modelled kor_2025 law table, for fixed
relationship, residency, debt and prior gifts whose deduction lookup
succeeds, increasing the property value never decreases the tax due
(both tax values are present). -/
theorem compute_tax_monotone_kor (gi1 gi2 : GiftInput) (limit : ℚ)
    (hrel : gi1.relationship = gi2.relationship)
    (hres : gi1.residency_status = gi2.residency_status)
    (hdebt : gi1.debt_assumed = gi2.debt_assumed)
    (hprior : gi1.prior_gifts = gi2.prior_gifts)
    (hlook : dictGet2 korBasicDeduction gi1.residency_status gi1.relationship =
      some (RawScalar.num limit))
    (hpv : gi1.property_value ≤ gi2.property_value) :
    ∃ b1 b2 t1 t2,
      compute_tax gi1 korLawContext2025 = .ok b1 ∧
      compute_tax gi2 korLawContext2025 = .ok b2 ∧
      b1.tax_due = some t1 ∧ b2.tax_due = some t2 ∧ t1 ≤ t2 := by
  have hlook2 : dictGet2 korBasicDeduction gi2.residency_status gi2.relationship =
      some (RawScalar.num limit) := by
    rw [← hres, ← hrel]
    exact hlook
  obtain ⟨b1, hok1, ht1⟩ := compute_tax_kor_eval gi1 limit hlook
  obtain ⟨b2, hok2, ht2⟩ := compute_tax_kor_eval gi2 limit hlook2
  exact ⟨b1, b2, _, _, hok1, hok2, ht1, ht2,
    korTax_mono _ _ (taxableBaseOf_mono gi1 gi2 limit hdebt hprior hpv)⟩

/-- Witness for C8 (amended): spouse gifts of 100,000,000 and
200,000,000. -/
theorem compute_tax_monotone_kor_witness :
    (dictGet2 korBasicDeduction
      (mkGiftInput "spouse" "resident" 100000000 0 0).residency_status
      (mkGiftInput "spouse" "resident" 100000000 0 0).relationship =
      some (RawScalar.num 600000000)) ∧
    ((mkGiftInput "spouse" "resident" 100000000 0 0).property_value ≤
      (mkGiftInput "spouse" "resident" 200000000 0 0).property_value) ∧
    ∃ b1 b2 t1 t2,
      compute_tax (mkGiftInput "spouse" "resident" 100000000 0 0) korLawContext2025 =
        .ok b1 ∧
      compute_tax (mkGiftInput "spouse" "resident" 200000000 0 0) korLawContext2025 =
        .ok b2 ∧
      b1.tax_due = some t1 ∧ b2.tax_due = some t2 ∧ t1 ≤ t2 := by
  refine ⟨rfl, by norm_num [mkGiftInput], ?_⟩
  exact compute_tax_monotone_kor (mkGiftInput "spouse" "resident" 100000000 0 0)
    (mkGiftInput "spouse" "resident" 200000000 0 0) 600000000 rfl rfl rfl rfl rfl
    (by norm_num [mkGiftInput])

/-! The eight §8 scenarios of the spec (also the repository's test
suite), checked against the embedding and the modelled kor_2025
table. -/

example :
    ∃ b, compute_tax (mkGiftInput "lineal_descendant_adult" "resident" 50000000 0 0) korLawContext2025 = .ok b ∧
      b.basic_deduction = 50000000 ∧ b.taxable_base = 0 ∧ b.tax_due = some 0 ∧
      b.law_configured = true := by
  simp [compute_tax, computeConfigured, korLawContext2025, korLawData, korBasicDeduction,
    korProgressiveRates, mkGiftInput, dictGet2, dictGet, RawScalar.toDecimal, taxableBaseOf,
    netGift, basicDeductionApplied, priorAdjustment, priorNotes, echoBreakdown,
    successBreakdown, zeroBaseBreakdown, noBracketBreakdown, matchedBreakdown,
    missingKeyBreakdown, find_progressive_bracket, findFromNormalized, normalizeBrackets,
    normalizeBracket, nbWithMin, nbWithMax, nbWithRate, nbWithRateVal, nbFinish, normMax,
    normMaxVal, consNormalized, sortByMin, insertByMin, selectBracket, lookupStep,
    limitStep, baseStep, bracketStep, quantizeHalfUp, intTrunc]

example :
    ∃ b, compute_tax (mkGiftInput "lineal_descendant_adult" "resident" 150000000 0 0) korLawContext2025 = .ok b ∧
      b.taxable_base = 100000000 ∧ b.tax_due = some 10000000 ∧ b.applied_rate = some (1 / 10) := by
  simp [compute_tax, computeConfigured, korLawContext2025, korLawData, korBasicDeduction,
    korProgressiveRates, mkGiftInput, dictGet2, dictGet, RawScalar.toDecimal, taxableBaseOf,
    netGift, basicDeductionApplied, priorAdjustment, priorNotes, echoBreakdown,
    successBreakdown, zeroBaseBreakdown, noBracketBreakdown, matchedBreakdown,
    missingKeyBreakdown, find_progressive_bracket, findFromNormalized, normalizeBrackets,
    normalizeBracket, nbWithMin, nbWithMax, nbWithRate, nbWithRateVal, nbFinish, normMax,
    normMaxVal, consNormalized, sortByMin, insertByMin, selectBracket, lookupStep,
    limitStep, baseStep, bracketStep, quantizeHalfUp, intTrunc]
  all_goals norm_num

example :
    ∃ b, compute_tax (mkGiftInput "lineal_descendant_adult" "resident" 160000000 0 0) korLawContext2025 = .ok b ∧
      b.taxable_base = 110000000 ∧ b.applied_rate = some (2 / 10) ∧
      b.progressive_deduction = some 10000000 ∧ b.tax_due = some 12000000 := by
  simp [compute_tax, computeConfigured, korLawContext2025, korLawData, korBasicDeduction,
    korProgressiveRates, mkGiftInput, dictGet2, dictGet, RawScalar.toDecimal, taxableBaseOf,
    netGift, basicDeductionApplied, priorAdjustment, priorNotes, echoBreakdown,
    successBreakdown, zeroBaseBreakdown, noBracketBreakdown, matchedBreakdown,
    missingKeyBreakdown, find_progressive_bracket, findFromNormalized, normalizeBrackets,
    normalizeBracket, nbWithMin, nbWithMax, nbWithRate, nbWithRateVal, nbFinish, normMax,
    normMaxVal, consNormalized, sortByMin, insertByMin, selectBracket, lookupStep,
    limitStep, baseStep, bracketStep, quantizeHalfUp, intTrunc]
  all_goals norm_num

example :
    ∃ b, compute_tax (mkGiftInput "spouse" "resident" 3500000000 0 0) korLawContext2025 = .ok b ∧
      b.basic_deduction = 600000000 ∧ b.taxable_base = 2900000000 ∧
      b.applied_rate = some (4 / 10) ∧ b.tax_due = some 1000000000 := by
  simp [compute_tax, computeConfigured, korLawContext2025, korLawData, korBasicDeduction,
    korProgressiveRates, mkGiftInput, dictGet2, dictGet, RawScalar.toDecimal, taxableBaseOf,
    netGift, basicDeductionApplied, priorAdjustment, priorNotes, echoBreakdown,
    successBreakdown, zeroBaseBreakdown, noBracketBreakdown, matchedBreakdown,
    missingKeyBreakdown, find_progressive_bracket, findFromNormalized, normalizeBrackets,
    normalizeBracket, nbWithMin, nbWithMax, nbWithRate, nbWithRateVal, nbFinish, normMax,
    normMaxVal, consNormalized, sortByMin, insertByMin, selectBracket, lookupStep,
    limitStep, baseStep, bracketStep, quantizeHalfUp, intTrunc]
  all_goals norm_num

example :
    ∃ b, compute_tax (mkGiftInput "lineal_descendant_minor" "resident" 30000000 0 5000000) korLawContext2025 = .ok b ∧
      b.basic_deduction_limit = 20000000 ∧ b.prior_gifts_adjustment = 5000000 ∧
      b.basic_deduction = 15000000 ∧ b.tax_due = some 1500000 := by
  simp [compute_tax, computeConfigured, korLawContext2025, korLawData, korBasicDeduction,
    korProgressiveRates, mkGiftInput, dictGet2, dictGet, RawScalar.toDecimal, taxableBaseOf,
    netGift, basicDeductionApplied, priorAdjustment, priorNotes, echoBreakdown,
    successBreakdown, zeroBaseBreakdown, noBracketBreakdown, matchedBreakdown,
    missingKeyBreakdown, find_progressive_bracket, findFromNormalized, normalizeBrackets,
    normalizeBracket, nbWithMin, nbWithMax, nbWithRate, nbWithRateVal, nbFinish, normMax,
    normMaxVal, consNormalized, sortByMin, insertByMin, selectBracket, lookupStep,
    limitStep, baseStep, bracketStep, quantizeHalfUp, intTrunc]
  all_goals norm_num

example :
    ∃ b, compute_tax (mkGiftInput "lineal_descendant_adult" "resident" 40000000 0 80000000) korLawContext2025 = .ok b ∧
      b.basic_deduction = 0 ∧ b.prior_gifts_adjustment = 50000000 ∧ b.tax_due = some 4000000 := by
  simp [compute_tax, computeConfigured, korLawContext2025, korLawData, korBasicDeduction,
    korProgressiveRates, mkGiftInput, dictGet2, dictGet, RawScalar.toDecimal, taxableBaseOf,
    netGift, basicDeductionApplied, priorAdjustment, priorNotes, echoBreakdown,
    successBreakdown, zeroBaseBreakdown, noBracketBreakdown, matchedBreakdown,
    missingKeyBreakdown, find_progressive_bracket, findFromNormalized, normalizeBrackets,
    normalizeBracket, nbWithMin, nbWithMax, nbWithRate, nbWithRateVal, nbFinish, normMax,
    normMaxVal, consNormalized, sortByMin, insertByMin, selectBracket, lookupStep,
    limitStep, baseStep, bracketStep, quantizeHalfUp, intTrunc]
  all_goals norm_num

example :
    ∃ b, compute_tax (mkGiftInput "lineal_descendant_adult" "resident" 10000000 12000000 0) korLawContext2025 = .ok b ∧
      b.net_gift = 0 ∧ b.taxable_base = 0 ∧ b.tax_due = some 0 := by
  simp [compute_tax, computeConfigured, korLawContext2025, korLawData, korBasicDeduction,
    korProgressiveRates, mkGiftInput, dictGet2, dictGet, RawScalar.toDecimal, taxableBaseOf,
    netGift, basicDeductionApplied, priorAdjustment, priorNotes, echoBreakdown,
    successBreakdown, zeroBaseBreakdown, noBracketBreakdown, matchedBreakdown,
    missingKeyBreakdown, find_progressive_bracket, findFromNormalized, normalizeBrackets,
    normalizeBracket, nbWithMin, nbWithMax, nbWithRate, nbWithRateVal, nbFinish, normMax,
    normMaxVal, consNormalized, sortByMin, insertByMin, selectBracket, lookupStep,
    limitStep, baseStep, bracketStep, quantizeHalfUp, intTrunc]
  all_goals norm_num

example :
    ∃ b, compute_tax (mkGiftInput "others" "non_resident" 60000000 0 0) korLawContext2025 = .ok b ∧
      b.basic_deduction_limit = 10000000 ∧ b.taxable_base = 50000000 ∧
      b.tax_due = some 5000000 ∧ b.law_version = some "2025-01-01" := by
  simp [compute_tax, computeConfigured, korLawContext2025, korLawData, korBasicDeduction,
    korProgressiveRates, mkGiftInput, dictGet2, dictGet, RawScalar.toDecimal, taxableBaseOf,
    netGift, basicDeductionApplied, priorAdjustment, priorNotes, echoBreakdown,
    successBreakdown, zeroBaseBreakdown, noBracketBreakdown, matchedBreakdown,
    missingKeyBreakdown, find_progressive_bracket, findFromNormalized, normalizeBrackets,
    normalizeBracket, nbWithMin, nbWithMax, nbWithRate, nbWithRateVal, nbFinish, normMax,
    normMaxVal, consNormalized, sortByMin, insertByMin, selectBracket, lookupStep,
    limitStep, baseStep, bracketStep, quantizeHalfUp, intTrunc]
  all_goals norm_num
